import Mathlib

/-!
Shallow embedding of the scoring-and-ranking core of `src/monitor.js`
(`BitcoinDominanceAnalyzer` and `AdvancedCryptoAnalyzer`), together with
theorems settling the specification claims about it.

Numeric modelling: JS numbers are embedded as `ℚ` wherever the source only
adds, multiplies, divides and compares (so every such definition is
executable), and as `ℝ` where the source calls `Math.log10` or `Math.sqrt`.
The one place where a claim turns on IEEE special values is the volatility
calculator: there JS `0 / 0 = NaN` (empty change series) is modelled
explicitly by `Option`, with `none` standing for `NaN`.  Elsewhere the
theorems below only evaluate the embedding on inputs with nonzero
denominators, where rational/real arithmetic and (finite) float arithmetic
define the same branching behaviour.
-/

namespace CryptoMonitor

/-! ## BitcoinDominanceAnalyzer (monitor.js lines 305-437) -/

/-- `this.thresholds.DOMINANCE.HIGH` -/
def DOMINANCE_HIGH : ℚ := 60

/-- `this.thresholds.DOMINANCE.MEDIUM` -/
def DOMINANCE_MEDIUM : ℚ := 45

/-- `this.thresholds.DOMINANCE.LOW` -/
def DOMINANCE_LOW : ℚ := 35

/-- Result record of `determineCyclePhase`. -/
structure CyclePhase where
  name : String
  strength : String
  description : String
deriving DecidableEq

/-- `determineCyclePhase(dominance)` (lines 354-381): the cascading
`if dominance >= HIGH / dominance <= LOW / dominance < MEDIUM / else`. -/
def determineCyclePhase (dominance : ℚ) : CyclePhase :=
  if dominance ≥ DOMINANCE_HIGH then
    { name := "btc_dominance", strength := "high",
      description := "Dominio fuerte de Bitcoin" }
  else if dominance ≤ DOMINANCE_LOW then
    { name := "altcoin_season", strength := "high",
      description := "Temporada favorable para altcoins" }
  else if dominance < DOMINANCE_MEDIUM then
    { name := "transition", strength := "medium",
      description := "Fase de transición" }
  else
    { name := "accumulation", strength := "medium",
      description := "Fase de acumulación" }

/-- `calculateBTCImpact(dominance)` (lines 390-395). -/
def calculateBTCImpact (dominance : ℚ) : ℚ :=
  if dominance ≥ DOMINANCE_HIGH then 1.2
  else if dominance ≤ DOMINANCE_LOW then 0.8
  else 1.0

/-- `calculateAltcoinImpact(dominance)` (lines 397-399). -/
def calculateAltcoinImpact (dominance : ℚ) : ℚ :=
  2 - calculateBTCImpact dominance

/-- Result record of `assessMarketImpact`. -/
structure MarketImpact where
  btcImpact : ℚ
  altcoinImpact : ℚ
deriving DecidableEq

/-- `assessMarketImpact(dominance)` (lines 383-388). -/
def assessMarketImpact (dominance : ℚ) : MarketImpact :=
  { btcImpact := calculateBTCImpact dominance,
    altcoinImpact := calculateAltcoinImpact dominance }

/-- One entry of `generateRecommendations`. -/
structure Recommendation where
  type : String
  action : String
  confidence : String
deriving DecidableEq

/-- `generateRecommendations(dominance)` (lines 401-436): the `switch` on
`phase.name` with the `CONSERVATIVE` default. -/
def generateRecommendations (dominance : ℚ) : List Recommendation :=
  let phase := determineCyclePhase dominance
  if phase.name = "btc_dominance" then
    [{ type := "BTC_FOCUS", action := "Priorizar Bitcoin", confidence := "Alta" }]
  else if phase.name = "altcoin_season" then
    [{ type := "ALT_FOCUS", action := "Considerar altcoins de alta capitalización",
       confidence := "Alta" }]
  else if phase.name = "transition" then
    [{ type := "MIXED", action := "Diversificar entre BTC y altcoins selectas",
       confidence := "Media" }]
  else
    [{ type := "CONSERVATIVE", action := "Mantener posiciones conservadoras",
       confidence := "Media" }]

/-- Result record of `analyzeMarketCycle`. -/
structure MarketCycleAnalysis where
  currentDominance : ℚ
  phase : CyclePhase
  impact : MarketImpact
  recommendations : List Recommendation
deriving DecidableEq

/-- `analyzeMarketCycle()` (lines 337-352) with the dominance reading of
`getCurrentDominance()` passed in explicitly: the HTTP fetch is external
I/O, so the value the fetch returned is a parameter of the embedding. -/
def analyzeMarketCycle (currentDominance : ℚ) : MarketCycleAnalysis :=
  { currentDominance := currentDominance,
    phase := determineCyclePhase currentDominance,
    impact := assessMarketImpact currentDominance,
    recommendations := generateRecommendations currentDominance }

/-! ## AdvancedCryptoAnalyzer constants and metric calculators
(monitor.js lines 449-571) -/

/-- `MARKET_SEGMENTS.MICRO_CAP` -/
def MICRO_CAP : ℚ := 50000000

/-- `MARKET_SEGMENTS.SMALL_CAP` -/
def SMALL_CAP : ℚ := 250000000

/-- `MARKET_SEGMENTS.MID_CAP` -/
def MID_CAP : ℚ := 1000000000

/-- `MARKET_SEGMENTS.LARGE_CAP` -/
def LARGE_CAP : ℚ := 10000000000

/-- `VOLATILITY_THRESHOLDS.MEDIUM` -/
def VOLATILITY_MEDIUM : ℚ := 15

/-- `VOLATILITY_THRESHOLDS.HIGH` -/
def VOLATILITY_HIGH : ℚ := 25

/-- `VOLUME_RATIOS.HEALTHY` -/
def VOLUME_HEALTHY : ℚ := 0.15

/-- `VOLUME_RATIOS.STRONG` -/
def VOLUME_STRONG : ℚ := 0.30

/-- `VOLUME_RATIOS.EXCEPTIONAL` -/
def VOLUME_EXCEPTIONAL : ℚ := 0.50

/-- Result record of `calculateMarketMaturity`. -/
structure MaturityResult where
  score : ℚ
  category : String
deriving DecidableEq

/-- `calculateMarketMaturity(marketCap)` (lines 507-514). -/
def calculateMarketMaturity (marketCap : ℚ) : MaturityResult :=
  if marketCap ≥ LARGE_CAP then { score := 1.0, category := "Establecido" }
  else if marketCap ≥ MID_CAP then { score := 1.5, category := "Maduro" }
  else if marketCap ≥ SMALL_CAP then { score := 2.0, category := "En Desarrollo" }
  else if marketCap ≥ MICRO_CAP then { score := 2.5, category := "Emergente" }
  else { score := 3.0, category := "Especulativo" }

/-- Result record of `calculateVolumeHealth`. -/
structure VolumeHealth where
  score : ℝ
  category : String

/-- `calculateVolumeHealth(volumeRatio)` (lines 516-527).  `Math.log10 x`
is embedded as `Real.logb 10 x`. -/
noncomputable def calculateVolumeHealth (volumeRatio : ℚ) : VolumeHealth :=
  let normalizedRatio : ℚ := min volumeRatio VOLUME_EXCEPTIONAL
  { score := Real.logb 10 ((normalizedRatio : ℝ) * 100 + 1) /
      Real.logb 10 ((VOLUME_EXCEPTIONAL : ℝ) * 100 + 1),
    category :=
      if volumeRatio ≥ VOLUME_EXCEPTIONAL then "Excepcional"
      else if volumeRatio ≥ VOLUME_STRONG then "Fuerte"
      else if volumeRatio ≥ VOLUME_HEALTHY then "Saludable"
      else "Bajo" }

/-- `calculateMomentumIndicator(priceChanges)` (lines 529-539).  Both
averages are guarded by a length check in the source, and the division by
`avgLoss` only happens after `avgLoss === 0` was ruled out, so the whole
function is plain rational arithmetic: no NaN can arise. -/
def calculateMomentumIndicator (priceChanges : List ℚ) : ℚ :=
  let gains := priceChanges.filter fun x => decide (x > 0)
  let losses := (priceChanges.filter fun x => decide (x < 0)).map fun x => |x|
  let avgGain : ℚ := if gains.length > 0 then gains.sum / gains.length else 0
  let avgLoss : ℚ := if losses.length > 0 then losses.sum / losses.length else 0
  if avgLoss = 0 then 1
  else
    let RS := avgGain / avgLoss
    (100 - 100 / (1 + RS)) / 100

/-- JS division as it occurs in `calculateVolatilityScore`, where the
denominator is `priceChanges.length` and the numerator is a fold over that
same list: when the length is `0` the numerator is `0` as well, and JS
`0 / 0` is `NaN`, modelled as `none`.  (A nonzero numerator over a zero
denominator, which JS would map to `±Infinity`, cannot arise at these call
sites.) -/
def divNaN (a b : ℚ) : Option ℚ :=
  if b = 0 then none else some (a / b)

/-- The `mean` of `calculateVolatilityScore` (line 544):
`priceChanges.reduce((a, b) => a + b, 0) / priceChanges.length`. -/
def listMean (priceChanges : List ℚ) : Option ℚ :=
  divNaN priceChanges.sum priceChanges.length

/-- The `variance` of `calculateVolatilityScore` (line 545).  A NaN `mean`
makes every summand NaN in JS, modelled by `Option.bind`. -/
def listVariance (priceChanges : List ℚ) : Option ℚ :=
  (listMean priceChanges).bind fun mean =>
    divNaN ((priceChanges.map fun b => (b - mean) ^ 2).sum) priceChanges.length

/-- The `stdDev` of `calculateVolatilityScore` (line 546):
`Math.sqrt(variance)`; `sqrt NaN = NaN` in JS, modelled by `Option.map`.
The variance is a mean of squares, hence never negative, so `Math.sqrt`
introduces no new NaN. -/
noncomputable def volatilityStdDev (priceChanges : List ℚ) : Option ℝ :=
  (listVariance priceChanges).map fun variance => Real.sqrt (variance : ℝ)

/-- Result record of `calculateVolatilityScore`; `score = none` models a
NaN score. -/
structure VolatilityResult where
  score : Option ℝ
  category : String

/-- `calculateVolatilityScore(priceChanges)` (lines 541-553).  For a NaN
`stdDev` (empty series), JS computes `Math.min(NaN / 25, 1) = NaN` for the
score, and both category comparisons `NaN > 25`, `NaN > 15` are false, so
the category is the final else branch. -/
noncomputable def calculateVolatilityScore (priceChanges : List ℚ) : VolatilityResult :=
  match volatilityStdDev priceChanges with
  | none => { score := none, category := "Baja" }
  | some stdDev =>
    { score := some (min (stdDev / (VOLATILITY_HIGH : ℝ)) 1),
      category :=
        if stdDev > (VOLATILITY_HIGH : ℝ) then "Alta"
        else if stdDev > (VOLATILITY_MEDIUM : ℝ) then "Media"
        else "Baja" }

/-! ## Analysis records and scorers (monitor.js lines 555-673) -/

/-- The `basic` sub-record built by `performBaseAnalysis`. -/
structure BasicInfo where
  name : String
  symbol : String
  price : ℚ
  marketCap : ℚ
  volume24h : ℚ

/-- The `metrics` sub-record built by `performBaseAnalysis`. -/
structure Metrics where
  marketMaturity : MaturityResult
  volumeHealth : VolumeHealth
  momentum : ℚ
  volatility : VolatilityResult

/-- The `performance` sub-record built by `performBaseAnalysis`; a `none`
field models a `null` percent change in the API response. -/
structure Performance where
  change1h : Option ℚ
  change24h : Option ℚ
  change7d : Option ℚ
  change30d : Option ℚ

/-- The part of the analysis object that the three scorers
(`calculateInvestmentScore`, `calculateRiskLevel`,
`calculatePotentialReturn`) read: `basic` and `metrics`. -/
structure AnalysisCore where
  basic : BasicInfo
  metrics : Metrics

/-- `calculateInvestmentScore(analysis)` (lines 555-571).  A NaN volatility
score makes `Math.max(0, 1 - NaN) = NaN`, which propagates through the
weighted sum and the final clamp, so the result is NaN exactly when the
volatility score is: this is the `Option.map`.  The function performs no
input validation; a non-positive `marketCap` flows straight into
`Math.log10` and the divisions. -/
noncomputable def calculateInvestmentScore (analysis : AnalysisCore) : Option ℝ :=
  analysis.metrics.volatility.score.map fun volatilityScore =>
    let marketMaturityScore : ℝ := (4 - (analysis.metrics.marketMaturity.score : ℝ)) * 2
    let volumeScore : ℝ := analysis.metrics.volumeHealth.score * 10
    let momentumScore : ℝ := (analysis.metrics.momentum : ℝ) * 10
    let volatilityAdjustment : ℝ := max 0 (1 - volatilityScore)
    let marketCapOptimality : ℝ :=
      min 10 (Real.logb 10 (1e11 / (analysis.basic.marketCap : ℝ)) * 2)
    let volumeRatio : ℝ :=
      min 10 (((analysis.basic.volume24h : ℝ) / (analysis.basic.marketCap : ℝ)) * 5)
    max 1 (min 10 (marketMaturityScore * 0.2 + volumeScore * 0.2 +
      momentumScore * 0.25 + volatilityAdjustment * 0.15 +
      marketCapOptimality * 0.1 + volumeRatio * 0.1))

/-- Result record of `calculateRiskLevel`; `score = none` models NaN. -/
structure RiskLevel where
  level : String
  score : Option ℝ

/-- `calculateRiskLevel(analysis)` (lines 646-657).  With a NaN risk score
both threshold comparisons are false in JS, giving the final else level. -/
noncomputable def calculateRiskLevel (analysis : AnalysisCore) : RiskLevel :=
  let riskScore : Option ℝ := analysis.metrics.volatility.score.map fun v =>
    v * 0.4 + ((analysis.metrics.marketMaturity.score : ℝ) / 3) * 0.3 +
      (1 - analysis.metrics.volumeHealth.score) * 0.3
  { level :=
      match riskScore with
      | none => "Bajo"
      | some r => if r > 0.66 then "Alto" else if r > 0.33 then "Medio" else "Bajo",
    score := riskScore }

/-- `calculatePotentialReturn(analysis)` (lines 659-673).  Reads market cap,
volume health, momentum and maturity, but not the volatility score, so no
`Option` is involved; as in the source there is no input validation. -/
noncomputable def calculatePotentialReturn (analysis : AnalysisCore) : ℝ :=
  let marketGrowthFactor : ℝ := Real.logb 10 (1e11 / (analysis.basic.marketCap : ℝ)) * 0.5
  let volumeHealthFactor : ℝ := analysis.metrics.volumeHealth.score
  let momentumFactor : ℝ := (analysis.metrics.momentum : ℝ)
  let maturityFactor : ℝ := (4 - (analysis.metrics.marketMaturity.score : ℝ)) / 3
  max 1 (min 10 ((marketGrowthFactor * 0.4 + volumeHealthFactor * 0.2 +
    momentumFactor * 0.2 + maturityFactor * 0.2) * 10))

/-- The per-coin quote data consumed by `performBaseAnalysis`: symbol, name,
price, market cap, 24h volume and the four nullable percent changes. -/
structure Snapshot where
  name : String
  symbol : String
  price : ℚ
  marketCap : ℚ
  volume24h : ℚ
  change1h : Option ℚ
  change24h : Option ℚ
  change7d : Option ℚ
  change30d : Option ℚ

/-- The full object returned by `performBaseAnalysis`. -/
structure BaseAnalysis where
  basic : BasicInfo
  metrics : Metrics
  performance : Performance
  isOnCoinbase : Bool
  investmentScore : Option ℝ
  riskLevel : RiskLevel
  potentialReturn : ℝ

/-- `performBaseAnalysis(coinData)` (lines 593-631).  The Coinbase token
set is external state fetched at initialization, passed in as a parameter.
The change list drops `null` entries exactly as the source filter does. -/
noncomputable def performBaseAnalysis (coinbaseTokens : List String)
    (coinData : Snapshot) : BaseAnalysis :=
  let priceChanges := [coinData.change1h, coinData.change24h,
    coinData.change7d, coinData.change30d].filterMap id
  let core : AnalysisCore :=
    { basic := { name := coinData.name, symbol := coinData.symbol,
                 price := coinData.price, marketCap := coinData.marketCap,
                 volume24h := coinData.volume24h },
      metrics := { marketMaturity := calculateMarketMaturity coinData.marketCap,
                   volumeHealth :=
                     calculateVolumeHealth (coinData.volume24h / coinData.marketCap),
                   momentum := calculateMomentumIndicator priceChanges,
                   volatility := calculateVolatilityScore priceChanges } }
  { basic := core.basic,
    metrics := core.metrics,
    performance := { change1h := coinData.change1h, change24h := coinData.change24h,
                     change7d := coinData.change7d, change30d := coinData.change30d },
    isOnCoinbase := coinbaseTokens.contains coinData.symbol,
    investmentScore := calculateInvestmentScore core,
    riskLevel := calculateRiskLevel core,
    potentialReturn := calculatePotentialReturn core }

/-! ## Dominance adjustment and the batch scan (monitor.js lines 573-707) -/

/-- `String.prototype.toUpperCase` as used on ticker symbols.  Core
`Char.toUpper` maps exactly the ASCII letters `a`-`z` to upper case; this
agrees with the JS Unicode mapping on the comparison below, because no
character outside `b`/`t`/`c` (ASCII) uppercases to `B`, `T` or `C`. -/
def jsToUpper (s : String) : String :=
  ⟨s.data.map Char.toUpper⟩

/-- The eight letter-case variants of the ticker `"BTC"`. -/
def btcCaseVariants : List String :=
  ["BTC", "BTc", "BtC", "Btc", "bTC", "bTc", "btC", "btc"]

/-- The object returned by `adjustForBTCDominance`: the spread of the base
analysis plus the attached dominance state and the adjusted score
(`none` models a NaN `investmentScore * impact`). -/
structure AdjustedAnalysis where
  analysis : BaseAnalysis
  btcDominance : MarketCycleAnalysis
  adjustedScore : Option ℝ

/-- `adjustForBTCDominance(analysis, btcDominance)` (lines 633-644):
`isBTC = analysis.basic.symbol.toUpperCase() === 'BTC'`, then
`adjustedScore = analysis.investmentScore * dominanceImpact`. -/
noncomputable def adjustForBTCDominance (analysis : BaseAnalysis)
    (btcDominance : MarketCycleAnalysis) : AdjustedAnalysis :=
  let isBTC := jsToUpper analysis.basic.symbol = "BTC"
  let dominanceImpact : ℚ :=
    if isBTC then btcDominance.impact.btcImpact else btcDominance.impact.altcoinImpact
  { analysis := analysis,
    btcDominance := btcDominance,
    adjustedScore := analysis.investmentScore.map fun s => s * (dominanceImpact : ℝ) }

/-- `analyzeToken(symbol)` (lines 573-591) with its two awaited fetches made
explicit: `quote` is the per-symbol quote response (`none` when the symbol is
absent, in which case the source throws `'Token no encontrado'`), and
`dominanceReading` is the BTC dominance value returned by the
`analyzeMarketCycle` fetch that this very call performs via `Promise.all` —
each `analyzeToken` call pulls its own dominance reading. -/
noncomputable def analyzeToken (coinbaseTokens : List String)
    (quote : Option Snapshot) (dominanceReading : ℚ) :
    Except String AdjustedAnalysis :=
  match quote with
  | none => .error "Token no encontrado"
  | some coinData =>
    .ok (adjustForBTCDominance (performBaseAnalysis coinbaseTokens coinData)
      (analyzeMarketCycle dominanceReading))

/-- The comparator of the scan sort (line 702),
`(a, b) => b.adjustedScore - a.adjustedScore`, read as the Boolean test
that lets `a` stay in front of `b`: higher adjusted score first.  The `getD`
reads through the `Option`; every theorem below that touches ordering only
compares entries whose scores are `some`, where this is exactly the JS
descending comparison. -/
noncomputable def scanLe (a b : AdjustedAnalysis) : Bool :=
  @decide (b.adjustedScore.getD 0 ≤ a.adjustedScore.getD 0)
    (Classical.propDecidable _)

/-- Lines 701-703 of `scanTopOpportunities`:
`opportunities.sort((a, b) => b.adjustedScore - a.adjustedScore).slice(0, 10)`.
`Array.prototype.sort` is stable per the ECMAScript specification, so it is
embedded as a stable merge sort. -/
noncomputable def rankOpportunities (opportunities : List AdjustedAnalysis) :
    List AdjustedAnalysis :=
  (opportunities.mergeSort scanLe).take 10

/-- The `for` loop of `scanTopOpportunities` (lines 692-699): one
`analyzeToken` call per listed coin, pushing successes and logging (here:
collecting) failure messages.  `dominanceFetch n` is the value returned by
the `(n+1)`-st dominance fetch of the scan; the second component of the
result is the total number of dominance fetches performed. -/
noncomputable def scanLoop (coinbaseTokens : List String) (dominanceFetch : ℕ → ℚ) :
    List (Option Snapshot) → ℕ → List AdjustedAnalysis × ℕ × List String
  | [], fetchCount => ([], fetchCount, [])
  | quote :: rest, fetchCount =>
    let next := scanLoop coinbaseTokens dominanceFetch rest (fetchCount + 1)
    match analyzeToken coinbaseTokens quote (dominanceFetch fetchCount) with
    | .ok analysis => (analysis :: next.1, next.2.1, next.2.2)
    | .error e => (next.1, next.2.1, e :: next.2.2)

/-- `scanTopOpportunities()` (lines 675-707) over an already-fetched listing:
run the per-coin loop, then sort descending and keep the top ten.  Returns
the ranked list, the number of dominance fetches performed during the scan,
and the logged error messages. -/
noncomputable def scanTopOpportunities (coinbaseTokens : List String)
    (dominanceFetch : ℕ → ℚ) (quotes : List (Option Snapshot)) :
    List AdjustedAnalysis × ℕ × List String :=
  let result := scanLoop coinbaseTokens dominanceFetch quotes 0
  (rankOpportunities result.1, result.2.1, result.2.2)

/-! ## Concrete inputs used by witnesses and counterexamples -/

/-- A well-formed metric set: maturity 1.5, volume health 0.5, momentum 0.5,
volatility 0.5. -/
noncomputable def sampleMetrics : Metrics :=
  { marketMaturity := { score := 1.5, category := "Maduro" },
    volumeHealth := { score := 0.5, category := "Fuerte" },
    volatility := { score := some 0.5, category := "Media" },
    momentum := 0.5 }

/-- A well-formed scoring input with a positive market cap. -/
noncomputable def sampleCore : AnalysisCore :=
  { basic := { name := "Ethereum", symbol := "ETH", price := 2000,
               marketCap := 250000000000, volume24h := 20000000000 },
    metrics := sampleMetrics }

/-- A base analysis for a non-BTC asset with investment score 5. -/
noncomputable def ethAnalysis : BaseAnalysis :=
  { basic := sampleCore.basic,
    metrics := sampleMetrics,
    performance := { change1h := some 1, change24h := some 5,
                     change7d := some 10, change30d := some 20 },
    isOnCoinbase := true,
    investmentScore := some 5,
    riskLevel := { level := "Medio", score := some 0.5 },
    potentialReturn := 5 }

/-- The same base analysis with the lower-case symbol `"btc"`. -/
noncomputable def lowercaseBtcAnalysis : BaseAnalysis :=
  { ethAnalysis with
      basic := { ethAnalysis.basic with name := "Bitcoin", symbol := "btc" } }

/-- The same base analysis with the mixed-case symbol `"bTc"`. -/
noncomputable def mixedCaseBtcAnalysis : BaseAnalysis :=
  { ethAnalysis with
      basic := { ethAnalysis.basic with name := "Bitcoin", symbol := "bTc" } }

/-- A scoring input whose market cap is `0` (the malformed input of the
error-handling claims), with otherwise well-formed metrics. -/
noncomputable def zeroCapCore : AnalysisCore :=
  { basic := { name := "Broken", symbol := "BRK", price := 1,
               marketCap := 0, volume24h := 1000000000 },
    metrics := sampleMetrics }

/-- A valid snapshot. -/
def snapA : Snapshot :=
  { name := "CoinA", symbol := "AAA", price := 100, marketCap := 2000000000,
    volume24h := 300000000, change1h := some 1, change24h := some 5,
    change7d := some 10, change30d := some 20 }

/-- A valid snapshot. -/
def snapB : Snapshot :=
  { name := "CoinB", symbol := "BBB", price := 2, marketCap := 500000000,
    volume24h := 90000000, change1h := some (-1), change24h := some 2,
    change7d := some (-3), change30d := some 8 }

/-- The malformed snapshot of claim C6: `marketCap = 0`. -/
def snapZero : Snapshot :=
  { name := "CoinZ", symbol := "ZRO", price := 1, marketCap := 0,
    volume24h := 1000000000, change1h := some 1, change24h := some 2,
    change7d := some 3, change30d := some 4 }

/-- A valid snapshot. -/
def snapC : Snapshot :=
  { name := "CoinC", symbol := "CCC", price := 5, marketCap := 60000000,
    volume24h := 10000000, change1h := some 0, change24h := some 1,
    change7d := some 2, change30d := some 3 }

/-- A valid snapshot. -/
def snapD : Snapshot :=
  { name := "CoinD", symbol := "DDD", price := 30000, marketCap := 15000000000,
    volume24h := 4000000000, change1h := some 2, change24h := some (-4),
    change7d := some 6, change30d := some 12 }

/-- The five-snapshot batch of claim C6: four valid snapshots and one with
`marketCap = 0`. -/
def batchQuotes : List (Option Snapshot) :=
  [some snapA, some snapB, some snapZero, some snapC, some snapD]

/-- A dominance feed returning 45 on every fetch. -/
def constFetch : ℕ → ℚ := fun _ => 45

/-- A two-snapshot batch for the dominance-fetch-count claim. -/
def twoQuotes : List (Option Snapshot) :=
  [some snapA, some snapB]

/-- A dominance feed whose first fetch returns 65 and whose later fetches
return 20, exhibiting inconsistent readings within one scan. -/
def varyFetch : ℕ → ℚ := fun n => if n = 0 then 65 else 20

/-- An adjusted analysis with adjusted score 5. -/
noncomputable def adjEqualA : AdjustedAnalysis :=
  { analysis := ethAnalysis, btcDominance := analyzeMarketCycle 50,
    adjustedScore := some 5 }

/-- A second, distinct adjusted analysis with the same adjusted score 5. -/
noncomputable def adjEqualB : AdjustedAnalysis :=
  { analysis := mixedCaseBtcAnalysis, btcDominance := analyzeMarketCycle 50,
    adjustedScore := some 5 }

/-! ## Helper lemmas -/

/-- The clamp `Math.max(1, Math.min(10, x))` always lands in `[1, 10]`. -/
theorem clamp_one_ten_bounds (x : ℝ) :
    1 ≤ max 1 (min 10 x) ∧ max 1 (min 10 x) ≤ 10 :=
  ⟨le_max_left _ _, max_le (by norm_num) (min_le_left _ _)⟩

/-- `Char.ofNat` on a valid code point round-trips through `toNat`. -/
theorem char_toNat_ofNat_valid (n : ℕ) (h : n.isValidChar) :
    (Char.ofNat n).toNat = n := by
  simp [Char.ofNat, h, Char.ofNatAux, Char.toNat, UInt32.toNat, BitVec.toNat_ofNatLt]

/-- Characterization of `Char.toUpper c = u` for an ASCII capital letter `u`
with lower-case partner `l`: it holds exactly for `c = l` and `c = u`. -/
theorem char_toUpper_eq_iff (c u l : Char) (hu : 65 ≤ u.toNat ∧ u.toNat ≤ 90)
    (hl : l.toNat = u.toNat + 32) : c.toUpper = u ↔ c = l ∨ c = u := by
  unfold Char.toUpper
  by_cases h : c.toNat ≥ 97 ∧ c.toNat ≤ 122
  · rw [if_pos h]
    constructor
    · intro hb
      left
      have hv : Nat.isValidChar (c.toNat - 32) := by left; omega
      have h2 : (Char.ofNat (c.toNat - 32)).toNat = c.toNat - 32 :=
        char_toNat_ofNat_valid _ hv
      rw [hb] at h2
      have hc : c.toNat = l.toNat := by omega
      have h4 := Char.ofNat_toNat c
      rw [hc] at h4
      rw [← h4]
      exact Char.ofNat_toNat l
    · rintro (rfl | rfl)
      · have hstep : c.toNat - 32 = u.toNat := by omega
        rw [hstep]
        exact Char.ofNat_toNat u
      · exact absurd h (by omega)
  · rw [if_neg h]
    constructor
    · intro hb
      right
      exact hb
    · rintro (rfl | rfl)
      · exact absurd (⟨by omega, by omega⟩ : c.toNat ≥ 97 ∧ c.toNat ≤ 122) h
      · rfl

/-- `Char.toUpper c = 'B'` exactly for `c ∈ ..b, B..`. -/
theorem char_toUpper_eq_B (c : Char) : c.toUpper = 'B' ↔ c = 'b' ∨ c = 'B' :=
  char_toUpper_eq_iff c 'B' 'b' (by decide) (by decide)

/-- `Char.toUpper c = 'T'` exactly for `c ∈ ..t, T..`. -/
theorem char_toUpper_eq_T (c : Char) : c.toUpper = 'T' ↔ c = 't' ∨ c = 'T' :=
  char_toUpper_eq_iff c 'T' 't' (by decide) (by decide)

/-- `Char.toUpper c = 'C'` exactly for `c ∈ ..c, C..`. -/
theorem char_toUpper_eq_C (c : Char) : c.toUpper = 'C' ↔ c = 'c' ∨ c = 'C' :=
  char_toUpper_eq_iff c 'C' 'c' (by decide) (by decide)

/-- The symbols whose JS `toUpperCase` is `"BTC"` are exactly the eight
letter-case variants of `"BTC"`. -/
theorem jsToUpper_eq_BTC_iff (s : String) :
    jsToUpper s = "BTC" ↔ s ∈ btcCaseVariants := by
  constructor
  · intro h
    have hd : s.data.map Char.toUpper = ['B', 'T', 'C'] := congrArg String.data h
    have hlen : s.data.length = 3 := by
      have h2 := congrArg List.length hd
      simpa using h2
    obtain ⟨a, b, c, habc⟩ := List.length_eq_three.mp hlen
    rw [habc] at hd
    simp only [List.map_cons, List.map_nil, List.cons.injEq, and_true] at hd
    obtain ⟨ha, hb, hc⟩ := hd
    have ha2 := (char_toUpper_eq_B a).mp ha
    have hb2 := (char_toUpper_eq_T b).mp hb
    have hc2 := (char_toUpper_eq_C c).mp hc
    have hs : s = ⟨[a, b, c]⟩ := by
      cases s with
      | mk data => exact congrArg String.mk habc
    rw [hs]
    rcases ha2 with rfl | rfl <;> rcases hb2 with rfl | rfl <;>
      rcases hc2 with rfl | rfl <;> decide
  · intro h
    fin_cases h <;> rfl

/-- The scan comparator is total. -/
theorem scanLe_total (a b : AdjustedAnalysis) : (scanLe a b || scanLe b a) = true := by
  simp only [scanLe, Bool.or_eq_true, decide_eq_true_eq]
  exact le_total (b.adjustedScore.getD 0) (a.adjustedScore.getD 0)

/-- The scan comparator is transitive. -/
theorem scanLe_trans (a b c : AdjustedAnalysis) :
    scanLe a b = true → scanLe b c = true → scanLe a c = true := by
  simp only [scanLe, decide_eq_true_eq]
  intro h1 h2
  exact le_trans h2 h1

/-- The scan loop performs exactly one dominance fetch per listed coin. -/
theorem scanLoop_fetchCount (coinbaseTokens : List String) (dominanceFetch : ℕ → ℚ) :
    ∀ (quotes : List (Option Snapshot)) (fetchCount : ℕ),
      (scanLoop coinbaseTokens dominanceFetch quotes fetchCount).2.1 =
        fetchCount + quotes.length := by
  intro quotes
  induction quotes with
  | nil =>
    intro n
    simp [scanLoop]
  | cons q rest ih =>
    intro n
    have hnext := ih (n + 1)
    rcases q with _ | snap <;>
      · simp only [scanLoop, analyzeToken, List.length_cons]
        rw [hnext]
        omega

/-! ## Claim C2 -/

/-- C2: for every dominance value in `[0, 100]`, the impact pair produced by
`assessMarketImpact` satisfies `btcImpact + altcoinImpact = 2` exactly, with
`btcImpact = 1.2` when `dominance ≥ 60`, `0.8` when `dominance ≤ 35`, and
`1.0` otherwise. -/
theorem c2_impact_zero_sum (dominance : ℚ) (h0 : 0 ≤ dominance)
    (h100 : dominance ≤ 100) :
    (assessMarketImpact dominance).btcImpact +
      (assessMarketImpact dominance).altcoinImpact = 2 ∧
    (60 ≤ dominance → (assessMarketImpact dominance).btcImpact = 1.2) ∧
    (dominance ≤ 35 → (assessMarketImpact dominance).btcImpact = 0.8) ∧
    (35 < dominance → dominance < 60 →
      (assessMarketImpact dominance).btcImpact = 1.0) := by
  refine ⟨?_, ?_, ?_, ?_⟩
  · simp only [assessMarketImpact, calculateAltcoinImpact]
    ring
  · intro h
    simp only [assessMarketImpact, calculateBTCImpact, DOMINANCE_HIGH, ge_iff_le]
    rw [if_pos h]
  · intro h
    simp only [assessMarketImpact, calculateBTCImpact, DOMINANCE_HIGH,
      DOMINANCE_LOW, ge_iff_le]
    rw [if_neg (by linarith), if_pos h]
  · intro h1 h2
    simp only [assessMarketImpact, calculateBTCImpact, DOMINANCE_HIGH,
      DOMINANCE_LOW, ge_iff_le]
    rw [if_neg (by linarith), if_neg (by linarith)]

/-- C2 witness: the theorem applied at `dominance = 50`. -/
theorem c2_impact_zero_sum_witness :
    (assessMarketImpact 50).btcImpact + (assessMarketImpact 50).altcoinImpact = 2 ∧
    (60 ≤ (50 : ℚ) → (assessMarketImpact 50).btcImpact = 1.2) ∧
    ((50 : ℚ) ≤ 35 → (assessMarketImpact 50).btcImpact = 0.8) ∧
    (35 < (50 : ℚ) → (50 : ℚ) < 60 → (assessMarketImpact 50).btcImpact = 1.0) :=
  c2_impact_zero_sum 50 (by norm_num) (by norm_num)

/-! ## Claim C3 -/

/-- C3: `determineCyclePhase` classifies a dominance percentage by the
ordered rules — `≥ 60` gives `btc_dominance` (strength high), `≤ 35` gives
`altcoin_season` (strength high), strictly between 35 and 45 gives
`transition` (strength medium), and `[45, 60)` gives `accumulation`
(strength medium); in particular 65, 35 and 45 resolve to `btc_dominance`,
`altcoin_season` and `accumulation` (not `transition`). -/
theorem c3_cycle_phase_classification (dominance : ℚ) :
    (60 ≤ dominance → determineCyclePhase dominance =
      ⟨"btc_dominance", "high", "Dominio fuerte de Bitcoin"⟩) ∧
    (dominance ≤ 35 → determineCyclePhase dominance =
      ⟨"altcoin_season", "high", "Temporada favorable para altcoins"⟩) ∧
    (35 < dominance → dominance < 45 → determineCyclePhase dominance =
      ⟨"transition", "medium", "Fase de transición"⟩) ∧
    (45 ≤ dominance → dominance < 60 → determineCyclePhase dominance =
      ⟨"accumulation", "medium", "Fase de acumulación"⟩) ∧
    determineCyclePhase 65 = ⟨"btc_dominance", "high", "Dominio fuerte de Bitcoin"⟩ ∧
    determineCyclePhase 35 =
      ⟨"altcoin_season", "high", "Temporada favorable para altcoins"⟩ ∧
    determineCyclePhase 45 = ⟨"accumulation", "medium", "Fase de acumulación"⟩ := by
  have hgen : ∀ d : ℚ,
      (60 ≤ d → determineCyclePhase d =
        ⟨"btc_dominance", "high", "Dominio fuerte de Bitcoin"⟩) ∧
      (d ≤ 35 → determineCyclePhase d =
        ⟨"altcoin_season", "high", "Temporada favorable para altcoins"⟩) ∧
      (35 < d → d < 45 → determineCyclePhase d =
        ⟨"transition", "medium", "Fase de transición"⟩) ∧
      (45 ≤ d → d < 60 → determineCyclePhase d =
        ⟨"accumulation", "medium", "Fase de acumulación"⟩) := by
    intro d
    refine ⟨?_, ?_, ?_, ?_⟩
    · intro h
      simp only [determineCyclePhase, DOMINANCE_HIGH, DOMINANCE_MEDIUM,
        DOMINANCE_LOW, ge_iff_le]
      rw [if_pos h]
    · intro h
      simp only [determineCyclePhase, DOMINANCE_HIGH, DOMINANCE_MEDIUM,
        DOMINANCE_LOW, ge_iff_le]
      rw [if_neg (by linarith), if_pos h]
    · intro h1 h2
      simp only [determineCyclePhase, DOMINANCE_HIGH, DOMINANCE_MEDIUM,
        DOMINANCE_LOW, ge_iff_le]
      rw [if_neg (by linarith), if_neg (by linarith), if_pos (by linarith)]
    · intro h1 h2
      simp only [determineCyclePhase, DOMINANCE_HIGH, DOMINANCE_MEDIUM,
        DOMINANCE_LOW, ge_iff_le]
      rw [if_neg (by linarith), if_neg (by linarith), if_neg (by linarith)]
  refine ⟨(hgen dominance).1, (hgen dominance).2.1, (hgen dominance).2.2.1,
    (hgen dominance).2.2.2, ?_, ?_, ?_⟩
  · exact (hgen 65).1 (by norm_num)
  · exact (hgen 35).2.1 (by norm_num)
  · exact (hgen 45).2.2.2 (by norm_num) (by norm_num)

/-- C3 witness: the conditional rules of the theorem applied at the concrete
dominance values 65, 20, 40 and 50, one per phase. -/
theorem c3_cycle_phase_classification_witness :
    determineCyclePhase 65 = ⟨"btc_dominance", "high", "Dominio fuerte de Bitcoin"⟩ ∧
    determineCyclePhase 20 =
      ⟨"altcoin_season", "high", "Temporada favorable para altcoins"⟩ ∧
    determineCyclePhase 40 = ⟨"transition", "medium", "Fase de transición"⟩ ∧
    determineCyclePhase 50 = ⟨"accumulation", "medium", "Fase de acumulación"⟩ :=
  ⟨(c3_cycle_phase_classification 65).1 (by norm_num),
   (c3_cycle_phase_classification 20).2.1 (by norm_num),
   (c3_cycle_phase_classification 40).2.2.1 (by norm_num) (by norm_num),
   (c3_cycle_phase_classification 50).2.2.2.1 (by norm_num) (by norm_num)⟩

/-! ## Claim C1 -/

/-- C1: for every analysis input with `marketCap > 0` and well-formed
metrics (`marketMaturity.score ∈ ..1, 1.5, 2, 2.5, 3..`,
`volumeHealth.score ∈ [0,1]`, `momentum ∈ [0,1]`,
`volatility.score ∈ [0,1]`), `calculateInvestmentScore` returns a value in
`[1, 10]` and `calculatePotentialReturn` returns a value in `[1, 10]`. -/
theorem c1_scores_within_bounds (a : AnalysisCore)
    (hmc : 0 < a.basic.marketCap)
    (hmm : a.metrics.marketMaturity.score = 1 ∨ a.metrics.marketMaturity.score = 1.5 ∨
      a.metrics.marketMaturity.score = 2 ∨ a.metrics.marketMaturity.score = 2.5 ∨
      a.metrics.marketMaturity.score = 3)
    (hvh : 0 ≤ a.metrics.volumeHealth.score ∧ a.metrics.volumeHealth.score ≤ 1)
    (hmom : 0 ≤ a.metrics.momentum ∧ a.metrics.momentum ≤ 1)
    (hvol : ∃ v, a.metrics.volatility.score = some v ∧ 0 ≤ v ∧ v ≤ 1) :
    (∃ r, calculateInvestmentScore a = some r ∧ 1 ≤ r ∧ r ≤ 10) ∧
    1 ≤ calculatePotentialReturn a ∧ calculatePotentialReturn a ≤ 10 := by
  obtain ⟨v, hv, hv0, hv1⟩ := hvol
  refine ⟨?_, ?_, ?_⟩
  · unfold calculateInvestmentScore
    rw [hv]
    simp only [Option.map_some']
    exact ⟨_, rfl, (clamp_one_ten_bounds _).1, (clamp_one_ten_bounds _).2⟩
  · unfold calculatePotentialReturn
    exact (clamp_one_ten_bounds _).1
  · unfold calculatePotentialReturn
    exact (clamp_one_ten_bounds _).2

/-- C1 witness: the theorem applied to a concrete well-formed input. -/
theorem c1_scores_within_bounds_witness :
    (∃ r, calculateInvestmentScore sampleCore = some r ∧ 1 ≤ r ∧ r ≤ 10) ∧
    1 ≤ calculatePotentialReturn sampleCore ∧ calculatePotentialReturn sampleCore ≤ 10 :=
  c1_scores_within_bounds sampleCore (by norm_num [sampleCore])
    (by right; left; rfl)
    (by constructor <;> norm_num [sampleCore, sampleMetrics])
    (by constructor <;> norm_num [sampleCore, sampleMetrics])
    ⟨0.5, rfl, by norm_num, by norm_num⟩

/-! ## Claim C5 -/

/-- C5 (refuted; the claim is a requirement the code does not implement):
at `marketCap = 0` the scoring functions perform no validation and reject
nothing — both still return an in-range numeric score produced by the final
clamp, with the logarithm evaluated on `1e11 / 0`.  In the embedding this
shows up as the scorers being total functions with no error channel. -/
theorem c5_no_rejection_at_zero_market_cap :
    zeroCapCore.basic.marketCap = 0 ∧
    (∃ r, calculateInvestmentScore zeroCapCore = some r ∧ 1 ≤ r ∧ r ≤ 10) ∧
    1 ≤ calculatePotentialReturn zeroCapCore ∧
    calculatePotentialReturn zeroCapCore ≤ 10 := by
  refine ⟨rfl, ?_, ?_, ?_⟩
  · unfold calculateInvestmentScore
    have hv : zeroCapCore.metrics.volatility.score = some 0.5 := rfl
    rw [hv]
    simp only [Option.map_some']
    exact ⟨_, rfl, (clamp_one_ten_bounds _).1, (clamp_one_ten_bounds _).2⟩
  · unfold calculatePotentialReturn
    exact (clamp_one_ten_bounds _).1
  · unfold calculatePotentialReturn
    exact (clamp_one_ten_bounds _).2

/-! ## Claim C9 -/

/-- C9 counterexample: on the empty change series
`calculateVolatilityScore` does not return a defined neutral score — the
JS computation is `0 / 0 = NaN` (modelled as `none`), so the returned score
is NaN rather than any real number, while the category falls through to
`"Baja"`. -/
theorem c9_counterexample :
    (calculateVolatilityScore []).score = none ∧
    ((calculateVolatilityScore []).score).isSome = false ∧
    (calculateVolatilityScore []).category = "Baja" := by
  refine ⟨?_, ?_, ?_⟩ <;>
    simp [calculateVolatilityScore, volatilityStdDev, listVariance, listMean, divNaN]

/-- C9 (amended): the empty and single-element change series never raise;
`calculateMomentumIndicator [] = 1` (no losses observed) and the volatility
of a single value has `stdDev = 0` (score 0, category `"Baja"`); on the
empty series, however, the volatility score is NaN (`none`) rather than a
defined neutral number, with category `"Baja"`. -/
theorem c9_empty_and_singleton_neutral :
    calculateMomentumIndicator [] = 1 ∧
    (calculateVolatilityScore []).score = none ∧
    (calculateVolatilityScore []).category = "Baja" ∧
    (∀ x : ℚ, volatilityStdDev [x] = some 0) ∧
    (∀ x : ℚ, (calculateVolatilityScore [x]).score = some 0 ∧
      (calculateVolatilityScore [x]).category = "Baja") := by
  have hstd : ∀ x : ℚ, volatilityStdDev [x] = some 0 := by
    intro x
    simp [volatilityStdDev, listVariance, listMean, divNaN]
  refine ⟨?_, ?_, ?_, hstd, ?_⟩
  · simp [calculateMomentumIndicator]
  · simp [calculateVolatilityScore, volatilityStdDev, listVariance, listMean, divNaN]
  · simp [calculateVolatilityScore, volatilityStdDev, listVariance, listMean, divNaN]
  · intro x
    constructor
    · norm_num [calculateVolatilityScore, hstd x, VOLATILITY_HIGH, VOLATILITY_MEDIUM]
    · norm_num [calculateVolatilityScore, hstd x, VOLATILITY_HIGH, VOLATILITY_MEDIUM]

/-! ## Claim C4 -/

/-- C4 counterexample: the claim routes every symbol other than the exact
string `"BTC"` to `altcoinImpact`, but the code compares
`symbol.toUpperCase()`: at dominance 65 the lower-case symbol `"btc"` with
investment score 5 receives `btcImpact = 1.2` (adjusted score 6), not
`altcoinImpact = 0.8` (which would give 4). -/
theorem c4_counterexample :
    lowercaseBtcAnalysis.basic.symbol = "btc" ∧
    lowercaseBtcAnalysis.basic.symbol ≠ "BTC" ∧
    lowercaseBtcAnalysis.investmentScore = some 5 ∧
    (analyzeMarketCycle 65).impact.btcImpact = 1.2 ∧
    (analyzeMarketCycle 65).impact.altcoinImpact = 0.8 ∧
    (adjustForBTCDominance lowercaseBtcAnalysis (analyzeMarketCycle 65)).adjustedScore =
      some 6 ∧
    (adjustForBTCDominance lowercaseBtcAnalysis (analyzeMarketCycle 65)).adjustedScore ≠
      (lowercaseBtcAnalysis.investmentScore.map fun s =>
        s * ((analyzeMarketCycle 65).impact.altcoinImpact : ℝ)) := by
  have hbtc : (analyzeMarketCycle 65).impact.btcImpact = 1.2 := by
    norm_num [analyzeMarketCycle, assessMarketImpact, calculateBTCImpact, DOMINANCE_HIGH]
  have halt : (analyzeMarketCycle 65).impact.altcoinImpact = 0.8 := by
    norm_num [analyzeMarketCycle, assessMarketImpact, calculateAltcoinImpact,
      calculateBTCImpact, DOMINANCE_HIGH]
  have hup : jsToUpper lowercaseBtcAnalysis.basic.symbol = "BTC" := rfl
  have hinv : lowercaseBtcAnalysis.investmentScore = some 5 := rfl
  have hadj :
      (adjustForBTCDominance lowercaseBtcAnalysis (analyzeMarketCycle 65)).adjustedScore =
        some 6 := by
    simp only [adjustForBTCDominance, hup, if_true, hinv, hbtc, Option.map_some']
    norm_num
  refine ⟨rfl, by decide, hinv, hbtc, halt, hadj, ?_⟩
  rw [hadj, hinv, halt]
  simp only [Option.map_some', ne_eq, Option.some.injEq]
  norm_num

/-- C4 (amended): `adjustForBTCDominance` multiplies the investment score by
`btcImpact` when the upper-cased symbol is `"BTC"` and by `altcoinImpact`
otherwise; for a base analysis with `investmentScore ≥ 1` (as the scorer
produces), an applied impact different from 1.0 strictly changes the score,
and at dominance 65 an asset whose upper-cased symbol is not `"BTC"` gets
`investmentScore × 0.8`, strictly less than `investmentScore`. -/
theorem c4_adjustment_case_insensitive (a : BaseAnalysis) (m : MarketCycleAnalysis)
    (s : ℝ) (hscore : a.investmentScore = some s) (h1 : 1 ≤ s) :
    (jsToUpper a.basic.symbol = "BTC" →
      (adjustForBTCDominance a m).adjustedScore = some (s * (m.impact.btcImpact : ℝ))) ∧
    (jsToUpper a.basic.symbol ≠ "BTC" →
      (adjustForBTCDominance a m).adjustedScore =
        some (s * (m.impact.altcoinImpact : ℝ))) ∧
    (∀ i : ℚ, i ≠ 1 → s * (i : ℝ) ≠ s) ∧
    (jsToUpper a.basic.symbol ≠ "BTC" →
      (adjustForBTCDominance a (analyzeMarketCycle 65)).adjustedScore =
        some (s * 0.8) ∧ s * 0.8 < s) := by
  have hs0 : s ≠ 0 := by linarith
  have himp : ∀ i : ℚ, i ≠ 1 → s * (i : ℝ) ≠ s := by
    intro i hi hcontra
    apply hi
    have h2 : s * (i : ℝ) = s * 1 := by rw [hcontra, mul_one]
    have h3 : (i : ℝ) = 1 := mul_left_cancel₀ hs0 h2
    exact_mod_cast h3
  have halt : (analyzeMarketCycle 65).impact.altcoinImpact = 0.8 := by
    norm_num [analyzeMarketCycle, assessMarketImpact, calculateAltcoinImpact,
      calculateBTCImpact, DOMINANCE_HIGH]
  refine ⟨?_, ?_, himp, ?_⟩
  · intro h
    simp [adjustForBTCDominance, h, hscore]
  · intro h
    simp [adjustForBTCDominance, h, hscore]
  · intro h
    constructor
    · simp only [adjustForBTCDominance, h, if_false, hscore, halt, Option.map_some']
      norm_num
    · linarith

/-- C4 witness: the amended theorem applied to the concrete non-BTC analysis
(symbol `"ETH"`, investment score 5) at dominance 65. -/
theorem c4_adjustment_case_insensitive_witness :
    (jsToUpper ethAnalysis.basic.symbol = "BTC" →
      (adjustForBTCDominance ethAnalysis (analyzeMarketCycle 65)).adjustedScore =
        some (5 * (((analyzeMarketCycle 65).impact.btcImpact : ℚ) : ℝ))) ∧
    (jsToUpper ethAnalysis.basic.symbol ≠ "BTC" →
      (adjustForBTCDominance ethAnalysis (analyzeMarketCycle 65)).adjustedScore =
        some (5 * (((analyzeMarketCycle 65).impact.altcoinImpact : ℚ) : ℝ))) ∧
    (∀ i : ℚ, i ≠ 1 → (5 : ℝ) * (i : ℝ) ≠ 5) ∧
    (jsToUpper ethAnalysis.basic.symbol ≠ "BTC" →
      (adjustForBTCDominance ethAnalysis (analyzeMarketCycle 65)).adjustedScore =
        some (5 * 0.8) ∧ (5 : ℝ) * 0.8 < 5) :=
  c4_adjustment_case_insensitive ethAnalysis (analyzeMarketCycle 65) 5 rfl (by norm_num)

/-! ## Claim C10 -/

/-- C10: the BTC test in the dominance adjustment is case-insensitive — for
every base analysis whose symbol is a letter-case variant of `"BTC"`,
`adjustForBTCDominance` applies `btcImpact`, and for every symbol that is
not a case variant of `"BTC"` it applies `altcoinImpact`. -/
theorem c10_btc_test_case_insensitive (a : BaseAnalysis) (m : MarketCycleAnalysis) :
    (a.basic.symbol ∈ btcCaseVariants →
      (adjustForBTCDominance a m).adjustedScore =
        a.investmentScore.map fun s => s * (m.impact.btcImpact : ℝ)) ∧
    (a.basic.symbol ∉ btcCaseVariants →
      (adjustForBTCDominance a m).adjustedScore =
        a.investmentScore.map fun s => s * (m.impact.altcoinImpact : ℝ)) := by
  constructor
  · intro h
    have hup : jsToUpper a.basic.symbol = "BTC" := (jsToUpper_eq_BTC_iff _).mpr h
    simp [adjustForBTCDominance, hup]
  · intro h
    have hup : jsToUpper a.basic.symbol ≠ "BTC" := fun hc =>
      h ((jsToUpper_eq_BTC_iff _).mp hc)
    simp [adjustForBTCDominance, hup]

/-- C10 witness: the theorem applied to the mixed-case symbol `"bTc"` at
dominance 50, which receives `btcImpact`. -/
theorem c10_btc_test_case_insensitive_witness :
    (adjustForBTCDominance mixedCaseBtcAnalysis (analyzeMarketCycle 50)).adjustedScore =
      mixedCaseBtcAnalysis.investmentScore.map
        fun s => s * (((analyzeMarketCycle 50).impact.btcImpact : ℚ) : ℝ) :=
  (c10_btc_test_case_insensitive mixedCaseBtcAnalysis (analyzeMarketCycle 50)).1
    (by decide)

/-! ## Claim C6 -/

/-- C6 (refuted; the claim is a requirement the code does not implement):
in a batch of five snapshots where one has `marketCap = 0`, nothing raises
in `performBaseAnalysis` — the malformed snapshot is scored (through the
zero-denominator arithmetic) and retained, so the scan returns 5 ranked
entries, not 4, and logs nothing.  The only per-asset failures the
`try/catch` of `scanTopOpportunities` can drop are thrown errors, such as a
symbol missing from the quote response. -/
theorem c6_zero_market_cap_not_dropped :
    snapZero.marketCap = 0 ∧
    ((scanTopOpportunities [] constFetch batchQuotes).1).length = 5 ∧
    ¬ (((scanTopOpportunities [] constFetch batchQuotes).1).length = 4) ∧
    (scanTopOpportunities [] constFetch batchQuotes).2.2 = [] := by
  have hloop1 : (scanLoop [] constFetch batchQuotes 0).1.length = 5 := by
    simp [scanLoop, analyzeToken, batchQuotes]
  have hloop2 : (scanLoop [] constFetch batchQuotes 0).2.2 = [] := by
    simp [scanLoop, analyzeToken, batchQuotes]
  have hlen : ((scanTopOpportunities [] constFetch batchQuotes).1).length = 5 := by
    simp only [scanTopOpportunities, rankOpportunities]
    rw [List.length_take, List.length_mergeSort, hloop1]
    omega
  refine ⟨rfl, hlen, by rw [hlen]; norm_num, ?_⟩
  simpa only [scanTopOpportunities] using hloop2

/-! ## Claim C7 -/

/-- C7 counterexample: scanning a batch of two present snapshots performs
two dominance fetches, not one, and when the feed returns 65 on the first
fetch and 20 on the second, the two analyses of the same scan carry the two
different dominance readings — there is no single shared reading. -/
theorem c7_counterexample :
    (scanTopOpportunities [] varyFetch twoQuotes).2.1 = 2 ∧
    ¬ ((scanTopOpportunities [] varyFetch twoQuotes).2.1 = 1) ∧
    ((scanLoop [] varyFetch twoQuotes 0).1.map
      fun a => a.btcDominance.currentDominance) = [65, 20] := by
  have hcount : (scanTopOpportunities [] varyFetch twoQuotes).2.1 = 2 := by
    simp only [scanTopOpportunities]
    rw [scanLoop_fetchCount]
    rfl
  refine ⟨hcount, by rw [hcount]; norm_num, ?_⟩
  simp [scanLoop, analyzeToken, twoQuotes, varyFetch, adjustForBTCDominance,
    analyzeMarketCycle]

/-- C7 (amended): the dominance state is fetched once per asset, not once
per scan — each `analyzeToken` call inside the scan loop performs its own
dominance fetch via `Promise.all`, so a scan over `N` listed coins performs
exactly `N` dominance fetches. -/
theorem c7_dominance_fetched_per_asset (coinbaseTokens : List String)
    (dominanceFetch : ℕ → ℚ) (quotes : List (Option Snapshot)) :
    (scanTopOpportunities coinbaseTokens dominanceFetch quotes).2.1 = quotes.length := by
  simp only [scanTopOpportunities]
  rw [scanLoop_fetchCount]
  omega

/-! ## Claim C8 -/

/-- C8: the batch ranking output is sorted by adjusted score in descending
order (every element's score is `≥` the next element's), contains at most
10 entries, and the underlying sort is stable: entries with equal adjusted
score keep their relative input order. -/
theorem c8_ranking_sorted_truncated_stable (l : List AdjustedAnalysis) :
    ((rankOpportunities l).Pairwise fun a b => ∀ x y : ℝ,
      a.adjustedScore = some x → b.adjustedScore = some y → y ≤ x) ∧
    (rankOpportunities l).length ≤ 10 ∧
    (∀ a b : AdjustedAnalysis, [a, b].Sublist l →
      a.adjustedScore = b.adjustedScore → [a, b].Sublist (l.mergeSort scanLe)) := by
  refine ⟨?_, ?_, ?_⟩
  · have hsorted := List.sorted_mergeSort scanLe_trans scanLe_total l
    have htake : (rankOpportunities l).Pairwise fun a b => scanLe a b = true := by
      unfold rankOpportunities
      exact List.Pairwise.sublist (List.take_sublist _ _) hsorted
    refine htake.imp ?_
    intro a b hab x y hx hy
    have h2 : b.adjustedScore.getD 0 ≤ a.adjustedScore.getD 0 := by
      simpa [scanLe] using hab
    rw [hx, hy] at h2
    simpa using h2
  · unfold rankOpportunities
    rw [List.length_take]
    exact min_le_left _ _
  · intro a b hab heq
    have hpair : ([a, b]).Pairwise fun x y => scanLe x y = true := by
      refine List.pairwise_cons.mpr ⟨?_, List.pairwise_singleton _ _⟩
      intro y hy
      rw [List.mem_singleton] at hy
      subst hy
      simp [scanLe, heq]
    exact List.sublist_mergeSort scanLe_trans scanLe_total hpair hab

/-- C8 witness: the stability clause of the theorem applied to a concrete
two-element batch with equal adjusted scores. -/
theorem c8_ranking_sorted_truncated_stable_witness :
    [adjEqualA, adjEqualB].Sublist ([adjEqualA, adjEqualB].mergeSort scanLe) :=
  (c8_ranking_sorted_truncated_stable [adjEqualA, adjEqualB]).2.2 adjEqualA adjEqualB
    (List.Sublist.refl _) rfl

end CryptoMonitor
